import Mathlib

/-!
# Verification of the library-management Flask API

This file gives a shallow embedding, in Lean, of the route handlers and the
data model of the `library_api_code` application (Flask + SQLAlchemy), and
proves properties of the embedded operations.

Conventions of the embedding:
* ORM rows become Lean structures mirroring the columns declared in
  `app/models.py`; relationship collections are carried as lists of primary
  keys in insertion order.
* A handler becomes a function from the relevant database state and the
  schema-validated request data to the new state together with an `Outcome`.
* An uncaught Python exception (which the WSGI layer turns into an HTTP 500
  response) is the `Outcome.exception` constructor.
* `db.session.commit()` is modelled as enforcing the UNIQUE constraint on
  `users.email` declared in `app/models.py`, which SQLite enforces: such a
  commit raises `IntegrityError` and persists nothing. Foreign-key
  constraints are NOT modelled as enforced: the application runs on SQLite
  (every config in `config.py`) and never issues `PRAGMA foreign_keys`, so
  SQLite ignores the declared foreign keys.
* The clock is a natural number of seconds.
-/

namespace LibraryApi

/-- The visible result of one request: either an HTTP response with a status
code, or an uncaught Python exception (surfaced by the framework as a 500). -/
inductive Outcome where
  | response (status : Nat) : Outcome
  | exception : Outcome
deriving DecidableEq, Repr

/-- SQLite assigns to a freshly inserted row the successor of the largest
primary key in the table (row ids start at 1). -/
def nextId (ids : List Nat) : Nat := ids.foldr max 0 + 1

/-! ## Orders, items and checkout (`app/blueprints/orders/routes.py`,
`app/blueprints/items/routes.py`, models `Orders` / `Items`) -/

/-- Row of the `items` table (`app/models.py`, class `Items`): primary key
`id`, boolean `is_sold` defaulting to `False`, required foreign key
`description_id`, and nullable foreign key `order_id`. -/
structure ItemRow where
  id : Nat
  is_sold : Bool
  description_id : Nat
  order_id : Option Nat
deriving DecidableEq, Repr

/-- Row of the `orders` table (`app/models.py`, class `Orders`): primary key
`id` and `order_date` (a date, encoded as a number). -/
structure OrderRow where
  id : Nat
  order_date : Nat
deriving DecidableEq, Repr

/-- The assignment `item.is_sold = True` performed by the checkout loop
(`orders/routes.py` line 47). -/
def markSold (it : ItemRow) : ItemRow := { it with is_sold := true }

/-- The `for item in order.items` loop of the `checkout` handler
(`orders/routes.py` lines 42-47), acting on the list of ORM objects: each
unsold item is marked sold in place and the traversal continues; on the first
item found with `is_sold` already true the loop stops (second component
`true`), leaving every later item untouched. -/
def checkoutLoop : List ItemRow → List ItemRow × Bool
  | [] => ([], false)
  | it :: rest =>
    if it.is_sold then (it :: rest, true)
    else
      let r := checkoutLoop rest
      (markSold it :: r.1, r.2)

/-- Result of the `checkout` handler on an order: the HTTP status, the state
of the order's item objects in the session when the handler returns, and how
many times `db.session.commit()` ran. -/
structure CheckoutResult where
  status : Nat
  items : List ItemRow
  commits : Nat
deriving DecidableEq, Repr

/-- The `checkout` handler (`orders/routes.py` lines 37-50) applied to the
items of an existing order: it runs the marking loop; if the loop hit an
already-sold item it returns 400 at once, without reaching the commit; else
it commits once and returns 200. -/
def checkout (items : List ItemRow) : CheckoutResult :=
  let r := checkoutLoop items
  if r.2 then ⟨400, r.1, 0⟩ else ⟨200, r.1, 1⟩

/-- The portion of the database state the order/item endpoints touch: the
`orders` and `items` tables. -/
structure DBState where
  orders : List OrderRow
  items : List ItemRow
deriving DecidableEq, Repr

/-- The lookup `db.session.get(Orders, oid)`. -/
def getOrder (s : DBState) (oid : Nat) : Option OrderRow :=
  s.orders.find? (fun o => o.id == oid)

/-- The lookup `db.session.get(Items, iid)`. -/
def getItem (s : DBState) (iid : Nat) : Option ItemRow :=
  s.items.find? (fun i => i.id == iid)

/-- The relationship collection `order.items` (back-populated by
`Items.order_id`): the items whose `order_id` equals the order's key. -/
def orderItems (s : DBState) (oid : Nat) : List ItemRow :=
  s.items.filter (fun i => i.order_id == some oid)

/-- Python truthiness of `item.order_id` as used by `if item.order_id:`
(`orders/routes.py` line 29): `None` and `0` are falsy. -/
def orderIdTruthy : Option Nat → Bool
  | none => false
  | some n => n != 0

/-- Effect of `order.items.append(item)` (`orders/routes.py` line 32): the
back-populated relationship sets `item.order_id` to the order's key. -/
def setItemOrder (items : List ItemRow) (iid oid : Nat) : List ItemRow :=
  items.map (fun i => if i.id == iid then { i with order_id := some oid } else i)

/-- Writes the item objects mutated inside a handler back over the table:
each row is replaced by the mutated object carrying the same primary key,
when there is one. -/
def replaceByIds (items updated : List ItemRow) : List ItemRow :=
  items.map (fun i =>
    match updated.find? (fun u => u.id == i.id) with
    | some u => u
    | none => i)

/-- The `create_order` handler (`orders/routes.py` lines 8-18) on a
schema-valid body: inserts a new order (the auto-increment key) and commits;
responds 201. The `OrderSchema` auto-schema loads only `order_date` (the
primary key is dump-only). -/
def create_order (s : DBState) (order_date : Nat) : DBState × Outcome :=
  let o : OrderRow := ⟨nextId (s.orders.map OrderRow.id), order_date⟩
  ({ s with orders := s.orders ++ [o] }, Outcome.response 201)

/-- Schema-validated body of `create_item` (`ItemSchema`, a
`SQLAlchemyAutoSchema` over `Items` with `include_fk = True`): the
auto-increment primary key is dump-only, `is_sold` (a column with a default)
and the nullable `order_id` are optional loads, and the non-nullable,
default-less foreign-key column `description_id` becomes a REQUIRED load
field — every body that passes validation carries it. -/
structure ItemData where
  description_id : Nat
  is_sold : Option Bool
  order_id : Option Nat
deriving DecidableEq, Repr

/-- The `create_item` handler (`items/routes.py` lines 25-36). A body that
fails schema validation — in particular one missing the required
`description_id` — answers 400 with nothing added (`body = none`). A body
that passes validation necessarily carries `description_id`, so
`Items(description_id=description_id, **data)` raises
`TypeError: got multiple values for argument` before `db.session.add` runs:
an uncaught exception, with nothing persisted. The handler therefore never
inserts an item, whatever the request. -/
def create_item (s : DBState) (description_id : Nat)
    (body : Option ItemData) : DBState × Outcome :=
  match body with
  | none => (s, Outcome.response 400)
  | some _ => (s, Outcome.exception)

/-- Body of the `add_item` view function (`orders/routes.py` lines 22-34):
looks up the order and the item, answers 400 when either is missing; answers
400 when `item.order_id` is truthy; otherwise appends the item to the order
(setting its `order_id` through the relationship), commits and answers
200. -/
def add_item (s : DBState) (order_id item_id : Nat) : DBState × Outcome :=
  match getOrder s order_id, getItem s item_id with
  | some o, some it =>
    if orderIdTruthy it.order_id then (s, Outcome.response 400)
    else ({ s with items := setItemOrder s.items it.id o.id }, Outcome.response 200)
  | _, _ => (s, Outcome.response 400)

/-- The `checkout` handler at the database level (`orders/routes.py` lines
37-50): `db.session.get` on a missing order gives `None` and `order.items`
then raises `AttributeError`; on an existing order the marking loop runs over
`order.items` and the mutated objects are written back (still uncommitted on
the 400 path, committed once on the 200 path). -/
def checkout_step (s : DBState) (order_id : Nat) : DBState × Outcome :=
  match getOrder s order_id with
  | none => (s, Outcome.exception)
  | some _ =>
    let r := checkoutLoop (orderItems s order_id)
    ({ s with items := replaceByIds s.items r.1 },
      if r.2 then Outcome.response 400 else Outcome.response 200)

/-! ## Route wiring of `add_item` (`orders/routes.py` lines 21-22) -/

/-- URL parameters bound by the route pattern
`'/<int:order_id>/add_item/<int:item_id>'` (`orders/routes.py` line 21). -/
def add_item_url_params : List String := ["order_id", "item_id"]

/-- Parameter names declared by the view function
`def add_item(order_id, description_id)` (`orders/routes.py` line 22). -/
def add_item_fn_params : List String := ["order_id", "description_id"]

/-- Python keyword application `f(**view_args)`, as Flask performs when
dispatching a matched URL to its view function: for a function with no
defaults and no catch-all, the call enters the body exactly when the provided
names and the declared parameter names coincide as sets; otherwise Python
raises `TypeError` (unexpected / missing argument) before the body runs. -/
def kwargsMatch (provided declared : List String) : Bool :=
  provided.all (fun p => declared.contains p) &&
    declared.all (fun p => provided.contains p)

/-- Result of dispatching a matched route: either the view body ran, or the
keyword application raised `TypeError` (an uncaught exception, HTTP 500). -/
inductive Dispatch (α : Type) where
  | ran (result : α) : Dispatch α
  | typeError : Dispatch α
deriving DecidableEq, Repr

/-- Flask dispatch of a request matching the `add_item` route: the converter
binds `order_id` and `item_id` from the URL and the view function is called
with them as keyword arguments. -/
def add_item_dispatch (s : DBState) (order_id item_id : Nat) :
    Dispatch (DBState × Outcome) :=
  if kwargsMatch add_item_url_params add_item_fn_params then
    Dispatch.ran (add_item s order_id item_id)
  else Dispatch.typeError

/-- The operations of the order/item API, each as the wired route behaves. -/
inductive Op where
  | createOrder (order_date : Nat) : Op
  | createItem (description_id : Nat) (body : Option ItemData) : Op
  | addItem (order_id item_id : Nat) : Op
  | checkoutOp (order_id : Nat) : Op
deriving DecidableEq, Repr

/-- One request against the order/item endpoints, as wired: the add-item
request goes through Flask's keyword dispatch of the view function, whose
`TypeError` is an uncaught exception leaving the database untouched. -/
def step (s : DBState) : Op → DBState × Outcome
  | Op.createOrder d => create_order s d
  | Op.createItem did body => create_item s did body
  | Op.addItem oid iid =>
    match add_item_dispatch s oid iid with
    | Dispatch.ran r => r
    | Dispatch.typeError => (s, Outcome.exception)
  | Op.checkoutOp oid => checkout_step s oid

/-- Database states reachable from the empty database through the order/item
operations. -/
inductive Reachable : DBState → Prop where
  | init : Reachable ⟨[], []⟩
  | next (s : DBState) (op : Op) (h : Reachable s) : Reachable (step s op).1

/-! ## Authentication (`app/util/auth.py`) -/

/-- The signing key (`auth.py` line 7). -/
def SECRET_KEY : String := "super secret secrets"

/-- The claims of a JWT as built by `encode_token` (`auth.py` lines 10-15):
expiry time, issue time, subject (the user id as a string) and role. -/
structure TokenPayload where
  exp : Nat
  iat : Nat
  sub : String
  role : String
deriving DecidableEq, Repr

/-- A word presented where a JWT is expected: either a well-formed token
signed with some key, or a string that does not parse as a JWT at all. -/
inductive Jwt where
  | signed (payload : TokenPayload) (key : String) : Jwt
  | malformed : Jwt
deriving DecidableEq, Repr

/-- The `encode_token` function (`auth.py` lines 9-18): issues a token signed
with `SECRET_KEY` whose expiry is one hour after the issue time, whose
subject is `str(user_id)`, and which carries the role claim. -/
def encode_token (user_id : Nat) (role : String) (now : Nat) : Jwt :=
  Jwt.signed ⟨now + 3600, now, toString user_id, role⟩ SECRET_KEY

/-- Result of `jose.jwt.decode`. -/
inductive DecodeResult where
  | ok (payload : TokenPayload) : DecodeResult
  | expiredSignature : DecodeResult
  | jwtError : DecodeResult
deriving DecidableEq, Repr

/-- Semantics of `jose.jwt.decode(token, key, algorithms=['HS256'])`
(`auth.py` line 34): an unparseable token or a signature made with a
different key raises `JWTError`; a verified token whose `exp` claim lies
strictly in the past (jose compares `exp < now`, default leeway 0) raises
`ExpiredSignatureError`; otherwise the payload is returned. -/
def jwt_decode (t : Jwt) (key : String) (now : Nat) : DecodeResult :=
  match t with
  | Jwt.malformed => DecodeResult.jwtError
  | Jwt.signed p k =>
    if k ≠ key then DecodeResult.jwtError
    else if p.exp < now then DecodeResult.expiredSignature
    else DecodeResult.ok p

/-- Result of the `token_required` wrapper around a view: an early error
response, the wrapped view running with `request.logged_in_user_id` set, or
an uncaught exception. -/
inductive AuthResult where
  | errResponse (status : Nat) : AuthResult
  | handlerRan (logged_in_user_id : String) : AuthResult
  | uncaught : AuthResult
deriving DecidableEq, Repr

/-- The `token_required` wrapper (`auth.py` lines 20-44). The Authorization
header is modelled, when present, as its list of whitespace-separated words
(`request.headers['Authorization'].split()`, which never yields empty
words). With no header the token stays `None` and the wrapper answers 401;
with a header the wrapper takes word `[1]`, raising `IndexError` when the
header has fewer than two words; the extracted token is decoded: success runs
the wrapped view with the subject claim attached to the request, an expired
signature answers 403, any other decode failure answers 401. -/
def token_required (authHeader : Option (List Jwt)) (now : Nat) : AuthResult :=
  match authHeader with
  | none => AuthResult.errResponse 401
  | some words =>
    match words[1]? with
    | none => AuthResult.uncaught
    | some token =>
      match jwt_decode token SECRET_KEY now with
      | DecodeResult.ok p => AuthResult.handlerRan p.sub
      | DecodeResult.expiredSignature => AuthResult.errResponse 403
      | DecodeResult.jwtError => AuthResult.errResponse 401

/-! ## Users (`app/blueprints/user/routes.py`, model `Users`) -/

/-- Row of the `users` table (`app/models.py`, class `Users`). -/
structure UserRow where
  id : Nat
  first_name : String
  last_name : String
  email : String
  phone : String
  password : String
  role : String
deriving DecidableEq, Repr

/-- Schema-validated body of `create_user` (`UserSchema` auto-schema over
`Users`): the five required columns; the auto-increment primary key is
dump-only and `role` takes its model default `"User"` when absent. -/
structure UserData where
  first_name : String
  last_name : String
  email : String
  phone : String
  password : String
deriving DecidableEq, Repr

/-- The werkzeug password hasher, modelled abstractly as an injective tagging
of the plaintext; the repository only ever feeds its output to
`check_password_hash`. -/
def generate_password_hash (pw : String) : String := "pbkdf2-hash:" ++ pw

/-- The werkzeug hash check: the stored hash matches exactly the hash of the
candidate password. -/
def check_password_hash (hash pw : String) : Bool :=
  hash == generate_password_hash pw

/-- The `create_user` handler (`user/routes.py` lines 33-52) on a
schema-valid body: hashes the password, builds `Users(**data)`, adds it and
commits, answering 201. The handler performs no duplicate-email check;
`db.session.commit()` is modelled as enforcing the UNIQUE constraint on
`users.email` (`app/models.py` line 130): committing a duplicate email raises
`IntegrityError`, which nothing catches, so the request ends in an uncaught
exception and no user is persisted. -/
def create_user (users : List UserRow) (data : UserData) :
    List UserRow × Outcome :=
  if users.any (fun u => u.email == data.email) then
    (users, Outcome.exception)
  else
    let u : UserRow :=
      ⟨nextId (users.map UserRow.id), data.first_name, data.last_name,
        data.email, data.phone, generate_password_hash data.password, "User"⟩
    (users ++ [u], Outcome.response 201)

/-- The successful response body of `login`: the greeting, the issued token
and the status code. -/
structure LoginResponse where
  message : String
  token : Jwt
  status : Nat
deriving DecidableEq, Repr

/-- The `login` handler (`user/routes.py` lines 11-28) on a schema-valid
body: queries the first user with the given email; only the branch
`if user and check_password_hash(...)` returns a response. When no user
matches or the hash check fails, control falls off the end of the function
and Python returns `None`: no response object of any kind. -/
def login (users : List UserRow) (email password : String) (now : Nat) :
    Option LoginResponse :=
  match users.find? (fun u => u.email == email) with
  | none => none
  | some u =>
    if check_password_hash u.password password then
      some ⟨"Welcome " ++ u.first_name, encode_token u.id u.role now, 200⟩
    else none

/-! ## Loans and books (`app/blueprints/loans/routes.py`,
`app/blueprints/books/routes.py`, models `Loans` / `Books`) -/

/-- Row of the `books` table (`app/models.py`, class `Books`). -/
structure BookRow where
  id : Nat
  title : String
  author : String
  isbn : String
deriving DecidableEq, Repr

/-- Row of the `loans` table (`app/models.py`, class `Loans`), carrying the
`loan_book` association as the list of related book keys in insertion
order. -/
structure LoanRow where
  id : Nat
  user_id : Nat
  borrow_date : Nat
  return_date : Nat
  books : List Nat
deriving DecidableEq, Repr

/-- The portion of the database state the loan/book endpoints touch. -/
structure LoansDB where
  loans : List LoanRow
  books : List BookRow
deriving DecidableEq, Repr

/-- The `add_book` handler (`loans/routes.py` lines 26-39): fetches the loan
and the book with no existence check — when the loan is missing,
`loan.books` raises `AttributeError`; when the book is missing,
`loan.books.append(None)` / `book.title` raise on the absent branch. On two
existing rows, membership `book not in loan.books` compares ORM identities,
that is primary keys: an absent book is appended and committed (200 with the
updated loan and its books), a present one answers 400 with nothing
changed. -/
def add_book (d : LoansDB) (loan_id book_id : Nat) : LoansDB × Outcome :=
  match d.loans.find? (fun l => l.id == loan_id) with
  | none => (d, Outcome.exception)
  | some loan =>
    match d.books.find? (fun b => b.id == book_id) with
    | none => (d, Outcome.exception)
    | some _ =>
      if book_id ∉ loan.books then
        ({ d with loans := d.loans.map (fun l =>
            if l.id = loan_id then { l with books := l.books ++ [book_id] }
            else l) },
          Outcome.response 200)
      else (d, Outcome.response 400)

/-- Schema-validated body of `update_book` (`BookSchema` auto-schema): the
three required columns, the primary key being dump-only. -/
structure BookData where
  title : String
  author : String
  isbn : String
deriving DecidableEq, Repr

/-- The `update_book` handler (`books/routes.py` lines 40-57) on a
schema-valid body: a missing book id answers 404; otherwise every loaded
field is written onto the row and committed, answering 200. -/
def update_book (d : LoansDB) (book_id : Nat) (data : BookData) :
    LoansDB × Outcome :=
  match d.books.find? (fun b => b.id == book_id) with
  | none => (d, Outcome.response 404)
  | some _ =>
    ({ d with books := d.books.map (fun b =>
        if b.id == book_id then ⟨b.id, data.title, data.author, data.isbn⟩
        else b) },
      Outcome.response 200)

/-- The `delete_book` handler (`books/routes.py` lines 61-67): fetches the
book with no existence check; `db.session.delete(None)` raises
`UnmappedInstanceError` when the id is missing. An existing row is deleted
and committed, answering 200 (the default status of a bare `jsonify`
return). -/
def delete_book (d : LoansDB) (book_id : Nat) : LoansDB × Outcome :=
  match d.books.find? (fun b => b.id == book_id) with
  | none => (d, Outcome.exception)
  | some _ =>
    ({ d with books := d.books.filter (fun b => b.id != book_id) },
      Outcome.response 200)

/-! ## Paginated book listing (`books/routes.py` lines 25-36) -/

/-- The pagination object built by flask-sqlalchemy `db.paginate`: the rows
of the requested page, the total row count, the request parameters, and the
derived page count `ceil(total / per_page)` (0 for an empty table). -/
structure PaginationObj where
  items : List BookRow
  total : Nat
  page : Nat
  per_page : Nat
  pages : Nat
deriving DecidableEq, Repr

/-- Semantics of `db.paginate(select(Books), page=page, per_page=per_page)`
with the default `error_out=True`: out-of-range parameters (`page < 1`,
`per_page < 1`, or an empty page other than page 1) abort with 404 (an
exception); otherwise the pagination object is built over the slice
`rows[(page-1)*per_page : page*per_page]`. -/
def db_paginate (books : List BookRow) (page per_page : Nat) :
    Except Unit PaginationObj :=
  if page < 1 || per_page < 1 then Except.error ()
  else
    let items := (books.drop ((page - 1) * per_page)).take per_page
    if items.isEmpty && page != 1 then Except.error ()
    else
      Except.ok
        ⟨items, books.length, page, per_page,
          (books.length + per_page - 1) / per_page⟩

/-- The `get_books` handler (`books/routes.py` lines 25-36) when the `page`
and `per_page` query parameters are given as integers: it paginates and
returns `books_schema.jsonify(books)` — the Marshmallow many-schema iterates
the pagination object, serializing only the rows of the requested page; no
pagination metadata of any kind is emitted. The bare `except:` catches any
pagination failure and falls back to returning every book. Both branches
answer 200. -/
def get_books (books : List BookRow) (page per_page : Nat) :
    List BookRow × Nat :=
  match db_paginate books page per_page with
  | Except.ok p => (p.items, 200)
  | Except.error _ => (books, 200)

/-! ## Theorems -/

/-- The marking loop of `checkout` in closed form: with an already-sold item
present, the unsold prefix gets marked and everything from the first sold
item on is untouched; with none present, every item gets marked. -/
theorem checkoutLoop_eq (items : List ItemRow) :
    checkoutLoop items =
      if items.any (fun i => i.is_sold) then
        (((items.takeWhile fun i => !i.is_sold).map markSold ++
          items.dropWhile fun i => !i.is_sold), true)
      else (items.map markSold, false) := by
  induction items with
  | nil => simp [checkoutLoop]
  | cons it rest ih =>
    by_cases h : it.is_sold
    · simp [checkoutLoop, h]
    · by_cases h2 : rest.any (fun i => i.is_sold)
      · simp [checkoutLoop, h, h2, ih]
      · simp [checkoutLoop, h, h2, ih]

/-- C1: on an order containing an already-sold item, `checkout` answers 400
with exactly the items preceding the first already-sold one newly marked
sold (and nothing after it touched, and no commit run); on an order with no
already-sold item it marks every item sold, commits once and answers 200. -/
theorem checkout_conflict_and_success (items : List ItemRow) :
    (items.any (fun i => i.is_sold) = true →
      (checkout items).status = 400 ∧
      (checkout items).items =
        ((items.takeWhile fun i => !i.is_sold).map markSold ++
          items.dropWhile fun i => !i.is_sold) ∧
      (checkout items).commits = 0) ∧
    (items.any (fun i => i.is_sold) = false →
      (checkout items).status = 200 ∧
      (checkout items).items = items.map markSold ∧
      (checkout items).commits = 1) := by
  constructor <;> intro h <;> simp [checkout, checkoutLoop_eq, h]

/-- Witness for C1: a three-item order with its middle item already sold is
refused with 400, only the first item newly marked; a fresh one-item order
checks out with 200. -/
theorem checkout_conflict_and_success_witness :
    (checkout [⟨1, false, 1, some 1⟩, ⟨2, true, 1, some 1⟩,
        ⟨3, false, 1, some 1⟩]).status = 400 ∧
    (checkout [⟨1, false, 1, some 1⟩, ⟨2, true, 1, some 1⟩,
        ⟨3, false, 1, some 1⟩]).items =
      [⟨1, true, 1, some 1⟩, ⟨2, true, 1, some 1⟩, ⟨3, false, 1, some 1⟩] ∧
    (checkout [⟨4, false, 2, some 2⟩]).status = 200 := by
  refine ⟨((checkout_conflict_and_success _).1 (by decide)).1, ?_,
    ((checkout_conflict_and_success _).2 (by decide)).1⟩
  rw [((checkout_conflict_and_success _).1 (by decide)).2.1]
  decide

/-- C9: the add-item route pattern binds `item_id` while the view function
requires `description_id`, so Flask's keyword call of the view raises
`TypeError` on every request: the view body never runs, whatever the state
and the ids in the URL. -/
theorem add_item_dispatch_always_type_error (s : DBState) (oid iid : Nat) :
    add_item_dispatch s oid iid = Dispatch.typeError := by
  have h : kwargsMatch add_item_url_params add_item_fn_params = false := by
    decide
  simp [add_item_dispatch, h]

/-- An existing user row, fixture for the duplicate-email run. -/
def existingUser : UserRow :=
  ⟨1, "test", "user", "test@user.com", "1234567890",
    generate_password_hash "password", "User"⟩

/-- A schema-valid creation payload reusing the email of `existingUser`
(the input of the repository's test `test_nonunique_email`). -/
def duplicateEmailPayload : UserData :=
  ⟨"test2", "user2", "test@user.com", "1234567890", "password"⟩

/-- C2 (code bug): creating a user whose email equals an existing user's
email does not answer 400 — `create_user` has no duplicate check, the commit
violates the UNIQUE constraint on `users.email`, and the request ends in an
uncaught `IntegrityError` (an HTTP 500); no user is persisted. The
repository's own test `tests/test_users.py::test_nonunique_email` asserts
status 400 on exactly this input. -/
theorem create_user_duplicate_email_uncaught :
    (create_user [existingUser] duplicateEmailPayload).2 = Outcome.exception ∧
    (create_user [existingUser] duplicateEmailPayload).2 ≠
      Outcome.response 400 ∧
    (create_user [existingUser] duplicateEmailPayload).1 = [existingUser] := by
  decide

/-- C10: on a schema-valid login body, when the email matches no user or the
stored hash does not match the password, `login` produces no response value
at all: control falls off the end of the handler, which returns `None`. -/
theorem login_bad_credentials_returns_none (users : List UserRow)
    (email password : String) (now : Nat)
    (h : users.find? (fun u => u.email == email) = none ∨
      ∃ u, users.find? (fun u => u.email == email) = some u ∧
        check_password_hash u.password password = false) :
    login users email password now = none := by
  rcases h with h | ⟨u, hu, hc⟩
  · simp [login, h]
  · simp [login, hu, hc]

/-- Witness for C10: an unknown email, and a known email with a wrong
password, both yield no response. -/
theorem login_bad_credentials_returns_none_witness :
    login [existingUser] "nobody@user.com" "password" 0 = none ∧
    login [existingUser] "test@user.com" "wrong-password" 0 = none := by
  refine ⟨login_bad_credentials_returns_none _ _ _ _ (Or.inl (by decide)), ?_⟩
  exact login_bad_credentials_returns_none _ _ _ _
    (Or.inr ⟨existingUser, by decide, by decide⟩)

/-- C3 counterexample: an Authorization header that carries no token — the
single word `Bearer` and nothing after it — does not produce the claimed
401: `request.headers['Authorization'].split()[1]` raises `IndexError` and
the request ends in an uncaught exception. -/
theorem token_required_one_word_header_crashes :
    token_required (some [Jwt.malformed]) 0 = AuthResult.uncaught ∧
    token_required (some [Jwt.malformed]) 0 ≠ AuthResult.errResponse 401 := by
  decide

/-- C3 amended: with no Authorization header the wrapper answers 401; with a
header of fewer than two words it raises an uncaught `IndexError`; otherwise
the second word is the token — one signed with the server key but expired
answers 403, a malformed one or one signed with another key answers 401, and
a valid unexpired one runs the wrapped view with the token's subject claim
attached to the request. -/
theorem token_required_cases (hdr : Option (List Jwt)) (now : Nat) :
    (hdr = none → token_required hdr now = AuthResult.errResponse 401) ∧
    (∀ words, hdr = some words → words.length < 2 →
      token_required hdr now = AuthResult.uncaught) ∧
    (∀ words p, hdr = some words →
      words[1]? = some (Jwt.signed p SECRET_KEY) → p.exp < now →
      token_required hdr now = AuthResult.errResponse 403) ∧
    (∀ words t, hdr = some words → words[1]? = some t →
      (∀ p, t ≠ Jwt.signed p SECRET_KEY) →
      token_required hdr now = AuthResult.errResponse 401) ∧
    (∀ words p, hdr = some words →
      words[1]? = some (Jwt.signed p SECRET_KEY) → ¬ p.exp < now →
      token_required hdr now = AuthResult.handlerRan p.sub) := by
  refine ⟨?_, ?_, ?_, ?_, ?_⟩
  · intro h; simp [token_required, h]
  · intro words h hlen
    have h1 : words[1]? = none := by
      rw [List.getElem?_eq_none]
      omega
    simp [token_required, h, h1]
  · intro words p h h1 hexp
    simp [token_required, h, h1, jwt_decode, hexp]
  · intro words t h h1 hne
    cases t with
    | malformed => simp [token_required, h, h1, jwt_decode]
    | signed p k =>
      have hk : ¬ k = SECRET_KEY := fun hkk => hne p (by rw [hkk])
      simp [token_required, h, h1, jwt_decode, hk]
  · intro words p h h1 hnow
    simp [token_required, h, h1, jwt_decode, hnow]

/-- Witness for C3 amended: each of the five cases at a concrete input. -/
theorem token_required_cases_witness :
    token_required none 0 = AuthResult.errResponse 401 ∧
    token_required (some []) 0 = AuthResult.uncaught ∧
    token_required (some [Jwt.malformed,
      Jwt.signed ⟨3600, 0, "1", "User"⟩ SECRET_KEY]) 7200 =
      AuthResult.errResponse 403 ∧
    token_required (some [Jwt.malformed, Jwt.malformed]) 0 =
      AuthResult.errResponse 401 ∧
    token_required (some [Jwt.malformed,
      Jwt.signed ⟨3600, 0, "1", "User"⟩ SECRET_KEY]) 1800 =
      AuthResult.handlerRan "1" := by
  refine ⟨(token_required_cases none 0).1 rfl,
    (token_required_cases (some []) 0).2.1 [] rfl (by decide),
    (token_required_cases _ 7200).2.2.1 _ ⟨3600, 0, "1", "User"⟩ rfl
      (by decide) (by decide),
    (token_required_cases _ 0).2.2.2.1 _ Jwt.malformed rfl (by decide) ?_,
    (token_required_cases _ 1800).2.2.2.2 _ ⟨3600, 0, "1", "User"⟩ rfl
      (by decide) (by decide)⟩
  intro p hp
  exact Jwt.noConfusion hp

/-- C4: a token issued for a user is built with expiry exactly one hour
after the issue time and carries the subject claim `str(user_id)` and the
role claim; presenting it validates — running the view with the user's id
attached — at any time up to one hour after issuance, and is rejected as
expired (403) at any time strictly past one hour. -/
theorem token_one_hour_lifecycle (user_id : Nat) (role : String)
    (issued now : Nat) (w : Jwt) :
    (encode_token user_id role issued =
      Jwt.signed ⟨issued + 3600, issued, toString user_id, role⟩ SECRET_KEY) ∧
    (now ≤ issued + 3600 →
      token_required (some [w, encode_token user_id role issued]) now =
        AuthResult.handlerRan (toString user_id)) ∧
    (issued + 3600 < now →
      token_required (some [w, encode_token user_id role issued]) now =
        AuthResult.errResponse 403) := by
  refine ⟨rfl, ?_, ?_⟩
  · intro h
    have h2 : ¬ (issued + 3600 < now) := by omega
    simp [token_required, encode_token, jwt_decode, h2]
  · intro h
    simp [token_required, encode_token, jwt_decode, h]

/-- Witness for C4: a token issued at time 0 for user 1 still validates at
second 3600 and is expired at second 3601. -/
theorem token_one_hour_lifecycle_witness :
    token_required (some [Jwt.malformed, encode_token 1 "User" 0]) 3600 =
      AuthResult.handlerRan (toString 1) ∧
    token_required (some [Jwt.malformed, encode_token 1 "User" 0]) 3601 =
      AuthResult.errResponse 403 :=
  ⟨(token_one_hour_lifecycle 1 "User" 0 3600 Jwt.malformed).2.1 (by decide),
    (token_one_hour_lifecycle 1 "User" 0 3601 Jwt.malformed).2.2 (by decide)⟩

/-- Auxiliary: a key-preserving update mapped over the loans table moves
through `find?` by primary key. -/
theorem find?_map_update (ls : List LoanRow) (lid : Nat) (g : LoanRow → LoanRow)
    (hg : ∀ l, (g l).id = l.id) (loan : LoanRow)
    (h : ls.find? (fun l => l.id == lid) = some loan) :
    (ls.map fun l => if l.id = lid then g l else l).find?
      (fun l => l.id == lid) = some (g loan) := by
  induction ls with
  | nil => simp at h
  | cons a rest ih =>
    by_cases hab : a.id = lid
    · have habb : (a.id == lid) = true := beq_iff_eq.mpr hab
      simp only [List.find?_cons, habb] at h
      have h2 : a = loan := Option.some.inj h
      subst h2
      have hgp : ((g a).id == lid) = true := by rw [hg a]; exact habb
      simp only [List.map_cons, if_pos hab, List.find?_cons, hgp]
    · have habb : (a.id == lid) = false := by
        simp [hab]
      simp only [List.find?_cons, habb] at h
      simp only [List.map_cons, if_neg hab, List.find?_cons, habb]
      exact ih h

/-- C5: on an existing loan and an existing book, `add_book` appends the
book and commits when it is absent from the loan (200, the updated loan
carrying the book at the end of its list, the books table untouched), and
answers 400 changing nothing when it is present — in particular, adding the
same book to the same loan twice is rejected on the second attempt. -/
theorem add_book_cases (d : LoansDB) (loan : LoanRow) (book : BookRow)
    (hl : d.loans.find? (fun l => l.id == loan.id) = some loan)
    (hb : d.books.find? (fun b => b.id == book.id) = some book) :
    (book.id ∉ loan.books →
      (add_book d loan.id book.id).2 = Outcome.response 200 ∧
      (add_book d loan.id book.id).1.loans.find? (fun l => l.id == loan.id) =
        some { loan with books := loan.books ++ [book.id] } ∧
      (add_book d loan.id book.id).1.books = d.books) ∧
    (book.id ∈ loan.books →
      (add_book d loan.id book.id).2 = Outcome.response 400 ∧
      (add_book d loan.id book.id).1 = d) ∧
    (book.id ∉ loan.books →
      (add_book (add_book d loan.id book.id).1 loan.id book.id).2 =
        Outcome.response 400 ∧
      (add_book (add_book d loan.id book.id).1 loan.id book.id).1 =
        (add_book d loan.id book.id).1) := by
  have hstep : add_book d loan.id book.id =
      if book.id ∉ loan.books then
        ({ d with loans := d.loans.map (fun l =>
            if l.id = loan.id then { l with books := l.books ++ [book.id] }
            else l) }, Outcome.response 200)
      else (d, Outcome.response 400) := by
    simp only [add_book, hl, hb]
  refine ⟨?_, ?_, ?_⟩
  · intro hmem
    rw [hstep, if_pos hmem]
    refine ⟨rfl, ?_, rfl⟩
    exact find?_map_update d.loans loan.id
      (fun l => { l with books := l.books ++ [book.id] }) (fun l => rfl)
      loan hl
  · intro hmem
    rw [hstep, if_neg (fun hn => hn hmem)]
    exact ⟨rfl, rfl⟩
  · intro hmem
    have hd2 : (add_book d loan.id book.id).1 =
        { d with loans := d.loans.map (fun l =>
            if l.id = loan.id then { l with books := l.books ++ [book.id] }
            else l) } := by
      rw [hstep, if_pos hmem]
    have hl2 := find?_map_update d.loans loan.id
      (fun l => { l with books := l.books ++ [book.id] }) (fun l => rfl)
      loan hl
    have hmem2 : book.id ∈ loan.books ++ [book.id] := by simp
    rw [hd2]
    constructor
    · simp only [add_book, hl2, hb]
      rw [if_neg (fun hn => hn hmem2)]
    · simp only [add_book, hl2, hb]
      rw [if_neg (fun hn => hn hmem2)]

/-- A loan fixture with no books attached. -/
def demoLoan : LoanRow := ⟨1, 1, 100, 114, []⟩

/-- A book fixture. -/
def demoBook : BookRow := ⟨1, "Dune", "Herbert", "isbn-1"⟩

/-- A loans database holding `demoLoan` and `demoBook`. -/
def demoLoansDB : LoansDB := ⟨[demoLoan], [demoBook]⟩

/-- Witness for C5: adding book 1 to loan 1 succeeds with 200; adding the
same book to the same loan a second time answers 400. -/
theorem add_book_cases_witness :
    (add_book demoLoansDB 1 1).2 = Outcome.response 200 ∧
    (add_book (add_book demoLoansDB 1 1).1 1 1).2 = Outcome.response 400 := by
  have h := add_book_cases demoLoansDB demoLoan demoBook (by decide) (by decide)
  exact ⟨(h.1 (by decide)).1, (h.2.2 (by decide)).1⟩

/-- C6 counterexample: deleting a book id absent from the database does not
answer 404 — `db.session.get` yields `None` and `db.session.delete(None)`
raises, leaving the request to end in an uncaught exception. -/
theorem delete_book_missing_id_crashes :
    (delete_book ⟨[], []⟩ 1).2 = Outcome.exception ∧
    (delete_book ⟨[], []⟩ 1).2 ≠ Outcome.response 404 := by
  decide

/-- C6 amended: of the operations named by the claim, only `update_book`
answers 404 on a missing entity id; `delete_book` on a missing book id and
`add_book` on a missing loan id end in uncaught exceptions (500), not
404. -/
theorem missing_entity_outcomes (d : LoansDB) (lid bid : Nat)
    (data : BookData) :
    (d.books.find? (fun b => b.id == bid) = none →
      (update_book d bid data).2 = Outcome.response 404 ∧
      (delete_book d bid).2 = Outcome.exception) ∧
    (d.loans.find? (fun l => l.id == lid) = none →
      (add_book d lid bid).2 = Outcome.exception) := by
  constructor
  · intro h
    exact ⟨by simp [update_book, h], by simp [delete_book, h]⟩
  · intro h
    simp [add_book, h]

/-- Witness for C6 amended: on the empty database, updating book 1 answers
404 while adding a book to loan 1 raises. -/
theorem missing_entity_outcomes_witness :
    (update_book ⟨[], []⟩ 1 ⟨"t", "a", "i"⟩).2 = Outcome.response 404 ∧
    (add_book ⟨[], []⟩ 1 1).2 = Outcome.exception :=
  ⟨((missing_entity_outcomes ⟨[], []⟩ 1 1 ⟨"t", "a", "i"⟩).1 (by decide)).1,
    (missing_entity_outcomes ⟨[], []⟩ 1 1 ⟨"t", "a", "i"⟩).2 (by decide)⟩

/-- Book fixtures for the pagination counterexample. -/
def bookA : BookRow := ⟨1, "Emma", "Austen", "isbn-a"⟩

/-- Second book fixture. -/
def bookB : BookRow := ⟨2, "Ivanhoe", "Scott", "isbn-b"⟩

/-- Third book fixture. -/
def bookC : BookRow := ⟨3, "Ulysses", "Joyce", "isbn-c"⟩

/-- C8 counterexample: the listing response carries no total_pages metadata.
A database of 2 books and one of 3 books give identical responses for
`page=1, per_page=2`, while their page counts `ceil(total/2)` differ (1
versus 2): the response cannot contain the claimed `total_pages` value. -/
theorem get_books_no_total_pages_in_response :
    get_books [bookA, bookB] 1 2 = get_books [bookA, bookB, bookC] 1 2 ∧
    (2 + 2 - 1) / 2 ≠ (3 + 2 - 1) / 2 := by
  decide

/-- C8 amended: with `page=1, per_page=2` the listing answers 200 with
exactly `min(2, total)` book records — the first two rows; the pagination
object does compute `pages = ceil(total/2)`, but the response body consists
of the serialized records only, with no pagination metadata. -/
theorem get_books_page1_per2 (books : List BookRow) :
    (get_books books 1 2).1 = books.take 2 ∧
    (get_books books 1 2).1.length = min 2 books.length ∧
    (get_books books 1 2).2 = 200 ∧
    db_paginate books 1 2 =
      Except.ok ⟨books.take 2, books.length, 1, 2,
        (books.length + 2 - 1) / 2⟩ := by
  have h : db_paginate books 1 2 =
      Except.ok ⟨books.take 2, books.length, 1, 2,
        (books.length + 2 - 1) / 2⟩ := by
    simp [db_paginate]
  refine ⟨?_, ?_, ?_, h⟩
  · simp [get_books, h]
  · simp [get_books, h, List.length_take]
  · simp [get_books, h]

/-! ## The order/item operations as wired (C7) -/

/-- C7 (code bug): the enforcement path the claim describes is dead code.
Every request to the wired add-item route dies in `TypeError` before the
`order_id` guard can run, so the operation never answers the claimed 400;
the create-item handler never persists an item (a schema-valid body raises
the duplicate-keyword `TypeError`, any other body fails validation with
400); and consequently, starting from the empty database, the three
operations can never produce a state containing any item — the claimed
invariants over items never get exercised at all. -/
theorem add_item_guard_unreachable :
    (∀ s oid iid, step s (Op.addItem oid iid) = (s, Outcome.exception)) ∧
    (∀ s did body, (create_item s did body).1 = s) ∧
    (∀ s, Reachable s → s.items = []) := by
  have hk : kwargsMatch add_item_url_params add_item_fn_params = false := by
    decide
  have h1 : ∀ s oid iid, step s (Op.addItem oid iid) =
      (s, Outcome.exception) := by
    intro s oid iid
    simp [step, add_item_dispatch, hk]
  refine ⟨h1, ?_, ?_⟩
  · intro s did body
    cases body with
    | none => rfl
    | some data => rfl
  · intro s h
    induction h with
    | init => rfl
    | next s2 op h2 ih =>
      cases op with
      | createOrder d => exact ih
      | createItem did body =>
        cases body with
        | none => exact ih
        | some data => exact ih
      | addItem oid iid =>
        rw [h1 s2 oid iid]
        exact ih
      | checkoutOp oid =>
        cases hgo : getOrder s2 oid with
        | none =>
          simp only [step, checkout_step, hgo]
          exact ih
        | some o =>
          simp only [step, checkout_step, hgo]
          simp [replaceByIds, ih]

/-- A concrete reachable state: the database after one create-order
request. -/
def c7Demo : DBState := (step ⟨[], []⟩ (Op.createOrder 10)).1

/-- Witness for C7: on the concrete reachable state `c7Demo`, the wired
add-item request raises (no 400), and the item table is empty. -/
theorem add_item_guard_unreachable_witness :
    step c7Demo (Op.addItem 1 1) = (c7Demo, Outcome.exception) ∧
    c7Demo.items = [] :=
  ⟨add_item_guard_unreachable.1 c7Demo 1 1,
    add_item_guard_unreachable.2.2 c7Demo
      (Reachable.next ⟨[], []⟩ (Op.createOrder 10) Reachable.init)⟩

end LibraryApi
